import Mathlib

/-!
A shallow embedding of the A2DP source-side coordinator of `android/a2dp.c`
(bluez 5.18), together with theorems about the behaviour of its operations.

Modelling conventions: machine integers are `Nat` (or `Int` where the C
returns negative error codes); byte blobs are `List Nat`; the GLib singly
linked lists are `List`; pointers to device records are represented by the
peer address key `dst` (the device table holds at most one record per
address), pointers to setups by their position in the setup list, and
pointers to endpoints by their `id`; fallible calls return `Option`.
External collaborators (the AVDTP engine, BtIO, the two IPC transports) are
abstracted: their outcomes appear as explicit parameters of the handlers,
and messages sent to them are accumulated in the state.
-/

/-- Modelled from the spec: HAL connection state values (§6 of the spec;
`hal-msg.h` is not among the sources): 0 = Disconnected. -/
def HAL_A2DP_STATE_DISCONNECTED : Nat := 0

/-- Modelled from the spec: HAL connection state 1 = Connecting. -/
def HAL_A2DP_STATE_CONNECTING : Nat := 1

/-- Modelled from the spec: HAL connection state 2 = Connected. -/
def HAL_A2DP_STATE_CONNECTED : Nat := 2

/-- Modelled from the spec: HAL connection state 3 = Disconnecting. -/
def HAL_A2DP_STATE_DISCONNECTING : Nat := 3

/-- Modelled from the spec: HAL command status for success (`hal-msg.h` is
not among the sources; only distinctness from the failure status matters). -/
def HAL_STATUS_SUCCESS : Nat := 0

/-- Modelled from the spec: HAL command status for failure. -/
def HAL_STATUS_FAILED : Nat := 1

/-- Modelled from the spec: audio IPC status for success (`audio-msg.h` is
not among the sources). -/
def AUDIO_STATUS_SUCCESS : Nat := 0

/-- Modelled from the spec: audio IPC status for failure. -/
def AUDIO_STATUS_FAILED : Nat := 1

/-- Modelled from the spec: AVDTP service-capability category for media
transport (`avdtp.h` is not among the sources; §4.5 of the spec names the
categories MEDIA_TRANSPORT, MEDIA_CODEC and DELAY_REPORTING). -/
def AVDTP_MEDIA_TRANSPORT : Nat := 1

/-- Modelled from the spec: AVDTP service-capability category for a media
codec. -/
def AVDTP_MEDIA_CODEC : Nat := 7

/-- Modelled from the spec: AVDTP service-capability category for delay
reporting. -/
def AVDTP_DELAY_REPORTING : Nat := 8

/-- Modelled from the spec: the one-byte codec enumerator for SBC
(`a2dp-codecs.h` is not among the sources; SBC is the only concrete entry
of the codec registry, §4.1). -/
def A2DP_CODEC_SBC : Nat := 0

/-- Modelled from the spec: the `a2dp_sbc_t` capability record of
`a2dp-codecs.h` (not among the sources).  Per §4.1 it is a 4-byte packed
structure holding five bit-mask fields (sampling frequency, channel mode,
block length, subbands, allocation method) and the two bitpool bytes. -/
structure a2dp_sbc_t where
  frequency : Nat
  channel_mode : Nat
  block_length : Nat
  subbands : Nat
  allocation_method : Nat
  min_bitpool : Nat
  max_bitpool : Nat
deriving DecidableEq

/-- Modelled from the spec: reinterpreting a raw configuration blob as an
`a2dp_sbc_t` (the C casts the `void *` blob to `a2dp_sbc_t *`).  Byte 0
packs channel mode (low nibble) and frequency (high nibble); byte 1 packs
allocation method (2 bits), subbands (2 bits) and block length (4 bits);
bytes 2 and 3 are the bitpool bounds. -/
def sbcOfBytes (b : List Nat) : a2dp_sbc_t :=
  { channel_mode := b.getD 0 0 % 16
    frequency := b.getD 0 0 / 16
    allocation_method := b.getD 1 0 % 4
    subbands := b.getD 1 0 / 4 % 4
    block_length := b.getD 1 0 / 16
    min_bitpool := b.getD 2 0
    max_bitpool := b.getD 3 0 }

/-- `sizeof(a2dp_sbc_t)`: 4 bytes. -/
def sbc_t_size : Nat := 4

/-- `sbc_check_config` of `android/a2dp.c`: the SBC entry of the codec
validator registry.  It rejects unless the configuration length equals the
capability length and equals `sizeof(a2dp_sbc_t)`, then requires a nonzero
bitwise AND between capability and configuration for the frequency, channel
mode, block length and allocation method fields.  (The C source contains no
test of the `subbands` field.)  Returns 0 on acceptance and `-EINVAL`
(= -22) otherwise. -/
def sbc_check_config (caps : List Nat) (caps_len : Nat) (conf : List Nat)
    (conf_len : Nat) : Int :=
  if conf_len ≠ caps_len ∨ conf_len ≠ sbc_t_size then -22
  else
    let cap := sbcOfBytes caps
    let config := sbcOfBytes conf
    if cap.frequency &&& config.frequency = 0 then -22
    else if cap.channel_mode &&& config.channel_mode = 0 then -22
    else if cap.block_length &&& config.block_length = 0 then -22
    else if cap.allocation_method &&& config.allocation_method = 0 then -22
    else 0

/-- `struct a2dp_preset`: an opaque codec configuration blob.  The C pairs
the `data` pointer with a separate `len` field that always equals the
number of bytes allocated for `data`; the model carries the bytes and
derives the length.  (The C declares `len` as `int8_t`; blobs of 128 bytes
or more, which would overflow it, do not occur for SBC and are outside the
model.) -/
structure a2dp_preset where
  data : List Nat
deriving DecidableEq

/-- The `len` field of a preset. -/
def a2dp_preset.len (p : a2dp_preset) : Nat := p.data.length

/-- `struct a2dp_endpoint`: a local SEP with its stable id, codec type,
capabilities preset and preferred presets.  The `sep` handle registered
with the AVDTP engine is external and not modelled. -/
structure a2dp_endpoint where
  id : Nat
  codec : Nat
  caps : a2dp_preset
  presets : List a2dp_preset
deriving DecidableEq

/-- `check_config` of `android/a2dp.c`: accept a proposed configuration if
it equals one of the endpoint's stored presets by length and bytes
(`memcmp` after a length test), otherwise fall back to the per-codec
validator run against the endpoint's capabilities; unknown codecs fail with
`-EINVAL`. -/
def check_config (endpoint : a2dp_endpoint) (config : a2dp_preset) : Int :=
  if endpoint.presets.any fun preset => preset.data == config.data then 0
  else if endpoint.codec = A2DP_CODEC_SBC then
    sbc_check_config endpoint.caps.data endpoint.caps.len config.data
      config.len
  else -22

/-- Modelled from the spec: an AVDTP service capability as received by the
set-configuration indication (`avdtp.h` is not among the sources).  For a
`AVDTP_MEDIA_CODEC` capability, `media_codec_type` is the codec byte of the
embedded `avdtp_media_codec_capability` header and `codec_data` the codec
payload that follows it; for other categories those two fields are
irrelevant. -/
structure avdtp_service_capability where
  category : Nat
  media_codec_type : Nat
  codec_data : List Nat
deriving DecidableEq

/-- The capability loop of `sep_setconf_ind`: walk the proposed capability
list, rejecting on a DELAY_REPORTING capability, skipping any other
non-MEDIA_CODEC capability, and for each MEDIA_CODEC capability rejecting
on a codec type mismatch or a failed `check_config`, otherwise remembering
the preset built from its payload.  `none` is rejection or the absence of
any MEDIA_CODEC capability; `some p` is acceptance with final preset `p`. -/
def sep_setconf_scan (endpoint : a2dp_endpoint) :
    List avdtp_service_capability → Option a2dp_preset → Option a2dp_preset
  | [], preset => preset
  | cap :: caps, preset =>
    if cap.category = AVDTP_DELAY_REPORTING then none
    else if cap.category ≠ AVDTP_MEDIA_CODEC then
      sep_setconf_scan endpoint caps preset
    else if cap.media_codec_type ≠ endpoint.codec then none
    else if check_config endpoint ⟨cap.codec_data⟩ < 0 then none
    else sep_setconf_scan endpoint caps (some ⟨cap.codec_data⟩)

/-- `struct a2dp_device`: one record per tracked peer.  `io` and `session`
record whether the L2CAP channel handle and the AVDTP session pointer are
non-null. -/
structure a2dp_device where
  dst : Nat
  state : Nat
  io : Bool
  session : Bool
deriving DecidableEq

/-- `struct a2dp_setup`: binds a device (by address), an endpoint (by id),
the negotiated preset and the AVDTP stream handle (abstracted to a tag). -/
structure a2dp_setup where
  devDst : Nat
  endpointId : Nat
  preset : a2dp_preset
  stream : Nat
deriving DecidableEq

/-- The coordinator's mutable state that the device-lifecycle claims refer
to: the device table, the setup list, and the CONN_STATE notifications sent
to the HAL so far (address, state). -/
structure CoordState where
  devices : List a2dp_device
  setups : List a2dp_setup
  notifs : List (Nat × Nat)
deriving DecidableEq

/-- `g_slist_find_custom(devices, dst, device_cmp)`: first record with the
given address. -/
def findDev : List a2dp_device → Nat → Option a2dp_device
  | [], _ => none
  | d :: ds, dst => if d.dst = dst then some d else findDev ds dst

/-- `devices = g_slist_remove(devices, dev)` where `dev` was found by
address: drop the first record with that address. -/
def removeFirstDev : List a2dp_device → Nat → List a2dp_device
  | [], _ => []
  | d :: ds, dst => if d.dst = dst then ds else d :: removeFirstDev ds dst

/-- In-place `dev->state = state` on the record found by address. -/
def setStateFirst : List a2dp_device → Nat → Nat → List a2dp_device
  | [], _, _ => []
  | d :: ds, dst, s =>
    if d.dst = dst then { d with state := s } :: ds
    else setStateFirst ds dst s |> (d :: ·)

/-- The session-creation step of `signaling_connect_cb` on the record found
by address: `dev->session = avdtp_new(...)` succeeds and the signaling
channel reference is dropped (`dev->io = NULL`). -/
def sessionUpFirst : List a2dp_device → Nat → List a2dp_device
  | [], _ => []
  | d :: ds, dst =>
    if d.dst = dst then { d with session := true, io := false } :: ds
    else sessionUpFirst ds dst |> (d :: ·)

/-- `bt_a2dp_notify_state` of `android/a2dp.c`: a no-op when the device is
already in the requested state; otherwise write the state, emit one
CONN_STATE notification, and when the new state is Disconnected call
`a2dp_device_free`, which unlinks and frees the record (the state write is
subsumed by the removal; `a2dp_device_free` touches neither the setup list
nor the other devices). -/
def bt_a2dp_notify_state (st : CoordState) (dst : Nat) (state : Nat) :
    CoordState :=
  match findDev st.devices dst with
  | none => st
  | some dev =>
    if dev.state = state then st
    else if state = HAL_A2DP_STATE_DISCONNECTED then
      { st with devices := removeFirstDev st.devices dst
                notifs := st.notifs ++ [(dst, state)] }
    else
      { st with devices := setStateFirst st.devices dst state
                notifs := st.notifs ++ [(dst, state)] }

/-- `disconnect_cb` of `android/a2dp.c`: the AVDTP engine reports the
session gone; drive the device to Disconnected. -/
def disconnect_cb (st : CoordState) (dst : Nat) : CoordState :=
  bt_a2dp_notify_state st dst HAL_A2DP_STATE_DISCONNECTED

/-- The outcome of the asynchronous part of a signaling channel
establishment, as observed by `signaling_connect_cb`: the connect itself
failed (`err` non-null), the MTU query failed, `avdtp_new` returned null,
`avdtp_discover` failed synchronously, or everything succeeded. -/
inductive SigResult where
  | connErr
  | mtuFail
  | newFail
  | discoverFail
  | ok
deriving DecidableEq

/-- `signaling_connect_cb` of `android/a2dp.c`.  On any of the three early
failures, notify Disconnected.  Otherwise the AVDTP session is created and
the signaling channel reference dropped; if the device is in Connecting
(the locally initiated path) a discover is issued, whose synchronous
failure leads to Disconnected; in every remaining case the device is
notified Connected.  (A `discoverFail` outcome is only meaningful when the
device was in Connecting, since no discover is attempted otherwise.) -/
def signaling_connect_cb (st : CoordState) (dst : Nat) (r : SigResult) :
    CoordState :=
  match r with
  | .connErr => bt_a2dp_notify_state st dst HAL_A2DP_STATE_DISCONNECTED
  | .mtuFail => bt_a2dp_notify_state st dst HAL_A2DP_STATE_DISCONNECTED
  | .newFail => bt_a2dp_notify_state st dst HAL_A2DP_STATE_DISCONNECTED
  | r =>
    let st' : CoordState := { st with devices := sessionUpFirst st.devices dst }
    match findDev st'.devices dst with
    | none => st'
    | some dev =>
      if dev.state = HAL_A2DP_STATE_CONNECTING ∧ r = SigResult.discoverFail
      then bt_a2dp_notify_state st' dst HAL_A2DP_STATE_DISCONNECTED
      else bt_a2dp_notify_state st' dst HAL_A2DP_STATE_CONNECTED

/-- `connect_cb` of `android/a2dp.c`: an inbound L2CAP connection.  On an
error (or a failed address query) nothing is touched.  If the peer is
already tracked the channel is the media transport channel
(`transport_connect_cb`, which mutates none of the modelled state).
Otherwise `a2dp_device_new` prepends a zero-initialised record - state
Disconnected, no io, no session - and the channel is handled exactly like
an outbound signaling channel. -/
def connect_cb (st : CoordState) (dst : Nat) (r : SigResult) : CoordState :=
  if r = SigResult.connErr then st
  else
    match findDev st.devices dst with
    | some _ => st
    | none =>
      signaling_connect_cb
        { st with devices :=
            { dst := dst, state := HAL_A2DP_STATE_DISCONNECTED,
              io := false, session := false } :: st.devices } dst r

/-- `bt_a2dp_disconnect` of `android/a2dp.c`: fail if the peer is not
tracked.  Otherwise the status is set to success before branching: with a
signaling channel handle still present the device is driven straight to
Disconnected and the shared `failed` label sends the response - which still
carries success; with no channel handle the AVDTP session is shut down
(external) and the device moves to Disconnecting. -/
def bt_a2dp_disconnect (st : CoordState) (dst : Nat) : CoordState × Nat :=
  match findDev st.devices dst with
  | none => (st, HAL_STATUS_FAILED)
  | some dev =>
    if dev.io then
      (bt_a2dp_notify_state st dst HAL_A2DP_STATE_DISCONNECTED,
        HAL_STATUS_SUCCESS)
    else
      (bt_a2dp_notify_state st dst HAL_A2DP_STATE_DISCONNECTING,
        HAL_STATUS_SUCCESS)

/-- `sep_setconf_ind` of `android/a2dp.c`: find the device for the session
(rejecting if unknown), run the capability loop, and on acceptance append a
setup binding (device, endpoint, final preset, stream) via `setup_add` and
confirm the configuration with a null error.  The returned Boolean is the
gboolean result; `true` also means the confirmation callback was invoked
with no error. -/
def sep_setconf_ind (st : CoordState) (dst : Nat) (endpoint : a2dp_endpoint)
    (stream : Nat) (caps : List avdtp_service_capability) :
    CoordState × Bool :=
  match findDev st.devices dst with
  | none => (st, false)
  | some _ =>
    match sep_setconf_scan endpoint caps none with
    | none => (st, false)
    | some preset =>
      ({ st with setups := st.setups ++ [⟨dst, endpoint.id, preset, stream⟩] },
        true)

/-- `setup_remove_by_id` of `android/a2dp.c`: `find_setup` returns the
first setup whose endpoint has the given id; if found it is unlinked and
freed, otherwise nothing changes. -/
def setup_remove_by_id : List a2dp_setup → Nat → List a2dp_setup
  | [], _ => []
  | s :: ss, id =>
    if s.endpointId = id then ss else setup_remove_by_id ss id |> (s :: ·)

/-- `sep_start_cfm` of `android/a2dp.c`: on an error in the start
confirmation, destroy the setup; on success, keep it. -/
def sep_start_cfm (setups : List a2dp_setup) (id : Nat) (hasError : Bool) :
    List a2dp_setup :=
  if hasError then setup_remove_by_id setups id else setups

/-- `sep_suspend_cfm` of `android/a2dp.c`: on an error in the suspend
confirmation, destroy the setup; on success, keep it. -/
def sep_suspend_cfm (setups : List a2dp_setup) (id : Nat) (hasError : Bool) :
    List a2dp_setup :=
  if hasError then setup_remove_by_id setups id else setups

/-- `sep_close_cfm` of `android/a2dp.c`: on an error in the close
confirmation the function returns at once, keeping the setup; on success
the setup is destroyed. -/
def sep_close_cfm (setups : List a2dp_setup) (id : Nat) (hasError : Bool) :
    List a2dp_setup :=
  if hasError then setups else setup_remove_by_id setups id

/-- `sep_abort_cfm` of `android/a2dp.c`: on an error in the abort
confirmation the function returns at once, keeping the setup; on success
the setup is destroyed. -/
def sep_abort_cfm (setups : List a2dp_setup) (id : Nat) (hasError : Bool) :
    List a2dp_setup :=
  if hasError then setups else setup_remove_by_id setups id

/-- An entry of the global `endpoints` list.  `bt_audio_close` frees the
endpoint (`unregister_endpoint`) but never unlinks it from the list, so the
list keeps a node for every endpoint ever registered; `live` distinguishes
the registered endpoints from the freed ones, whose memory is modelled as
left intact. -/
structure EndpointEntry where
  ep : a2dp_endpoint
  live : Bool
deriving DecidableEq

/-- `register_endpoint` of `android/a2dp.c`: allocate the id as
`g_slist_length(endpoints) + 1` - the length of the whole list, freed
entries included - take the first preset as the capabilities and the rest
as the preferred presets, and append the endpoint to the list.  Returns the
new list and the assigned id. -/
def register_endpoint (endpoints : List EndpointEntry) (codec : Nat)
    (presets : List a2dp_preset) : List EndpointEntry × Nat :=
  (endpoints ++
    [⟨{ id := endpoints.length + 1, codec := codec,
        caps := presets.headD ⟨[]⟩, presets := presets.tail }, true⟩],
    endpoints.length + 1)

/-- `find_endpoint` of `android/a2dp.c`: first list entry with the given
id (the C walks freed entries too). -/
def find_endpoint : List EndpointEntry → Nat → Option EndpointEntry
  | [], _ => none
  | e :: es, id => if e.ep.id = id then some e else find_endpoint es id

/-- `unregister_endpoint` applied to the entry found by id: the endpoint is
freed but its list node stays. -/
def markClosedFirst : List EndpointEntry → Nat → List EndpointEntry
  | [], _ => []
  | e :: es, id =>
    if e.ep.id = id then { e with live := false } :: es
    else markClosedFirst es id |> (e :: ·)

/-- `bt_audio_close` of `android/a2dp.c`: find the endpoint (failing if
absent), free it, and respond - without ever removing its node from the
`endpoints` list. -/
def bt_audio_close (endpoints : List EndpointEntry) (id : Nat) :
    List EndpointEntry × Nat :=
  match find_endpoint endpoints id with
  | none => (endpoints, AUDIO_STATUS_FAILED)
  | some _ => (markClosedFirst endpoints id, AUDIO_STATUS_SUCCESS)

/-- `parse_presets` of `android/a2dp.c`: decode `count` length-tagged blobs
laid back-to-back in `buf`, `len` being the trusted remaining byte count.
Each step requires at least the one-byte header
(`sizeof(struct audio_preset)`, modelled from the spec's packed
`(len, bytes[len])` wire format, §6, as `audio-msg.h` is not among the
sources), then requires the remainder to be nonzero and at least the
tagged length, and fails the whole parse otherwise.  (The C stores the tag
into an `int8_t`; tags of 128 or more are outside the model.) -/
def parse_presets : List Nat → Nat → Nat → Option (List a2dp_preset)
  | _, 0, _ => some []
  | buf, count + 1, len =>
    if len < 1 then none
    else if len - 1 = 0 ∨ len - 1 < buf.headD 0 then none
    else
      match parse_presets (buf.drop (1 + buf.headD 0)) count
          (len - 1 - buf.headD 0) with
      | none => none
      | some rest => some (⟨(buf.drop 1).take (buf.headD 0)⟩ :: rest)

/-- The wire encoding of a preset list: each preset as its length tag
followed by its bytes, back-to-back. -/
def presetChunks : List a2dp_preset → List Nat
  | [] => []
  | p :: ps => p.data.length :: (p.data ++ presetChunks ps)

/-- `bt_audio_open` of `android/a2dp.c`: reject a zero preset count or a
failed parse with a failed response and no registration; otherwise register
an endpoint from the parsed presets and answer with its id.  (`rsp.id == 0`
can never occur since ids start at 1.) -/
def bt_audio_open (endpoints : List EndpointEntry) (codec : Nat)
    (presetCount : Nat) (buf : List Nat) : List EndpointEntry × Option Nat :=
  if presetCount = 0 then (endpoints, none)
  else
    match parse_presets buf presetCount buf.length with
    | none => (endpoints, none)
    | some presets =>
      let r := register_endpoint endpoints codec presets
      if r.2 = 0 then (r.1, none) else (r.1, some r.2)

/-- An audio IPC command affecting the endpoint registry. -/
inductive AudioEv where
  | openEv (codec : Nat) (presetCount : Nat) (buf : List Nat)
  | closeEv (id : Nat)
deriving DecidableEq

/-- Run a sequence of audio OPEN / CLOSE commands against the endpoint
registry. -/
def runAudio : List EndpointEntry → List AudioEv → List EndpointEntry
  | eps, [] => eps
  | eps, AudioEv.openEv c n buf :: evs =>
    runAudio (bt_audio_open eps c n buf).1 evs
  | eps, AudioEv.closeEv id :: evs => runAudio (bt_audio_close eps id).1 evs

/-- The endpoint used by the C5 scenario: id 1, SBC, one preferred
preset. -/
def C5endpoint : a2dp_endpoint :=
  ⟨1, 0, ⟨[33, 21, 53, 53]⟩, [⟨[33, 21, 53, 53]⟩]⟩

/-- The peer's proposed capabilities in the C5 scenario: media transport
plus an SBC media-codec configuration equal to the stored preset. -/
def C5caps : List avdtp_service_capability :=
  [⟨AVDTP_MEDIA_TRANSPORT, 0, []⟩, ⟨AVDTP_MEDIA_CODEC, 0, [33, 21, 53, 53]⟩]

/-- The state after the peer of device 7 (Connected, with a session)
successfully configures a stream: one setup bound to the device. -/
def C5afterSetconf : CoordState :=
  (sep_setconf_ind ⟨[⟨7, 2, false, true⟩], [], []⟩ 7 C5endpoint 0 C5caps).1

/-- The state after the AVDTP disconnect callback then fires for device
7. -/
def C5afterDrop : CoordState := disconnect_cb C5afterSetconf 7

/-- What the capability loop of `sep_setconf_ind` requires of one proposed
capability in order not to reject: it is not DELAY_REPORTING, and if it is
a MEDIA_CODEC capability its codec type matches the endpoint's and its
payload passes `check_config`. -/
def capOk (endpoint : a2dp_endpoint) (cap : avdtp_service_capability) :
    Prop :=
  cap.category ≠ AVDTP_DELAY_REPORTING ∧
    (cap.category = AVDTP_MEDIA_CODEC →
      cap.media_codec_type = endpoint.codec ∧
        ¬check_config endpoint ⟨cap.codec_data⟩ < 0)

instance capOk.instDecidable (endpoint : a2dp_endpoint)
    (cap : avdtp_service_capability) : Decidable (capOk endpoint cap) := by
  unfold capOk
  infer_instance

/-! ### Helper lemmas about the device table -/

lemma removeFirstDev_not_mem :
    ∀ (l : List a2dp_device) (dst : Nat),
      (l.map a2dp_device.dst).Nodup →
      ∀ d ∈ removeFirstDev l dst, d.dst ≠ dst
  | [], _, _, d, hd => by simp [removeFirstDev] at hd
  | a :: l, dst, h, d, hd => by
    simp only [List.map_cons, List.nodup_cons] at h
    by_cases ha : a.dst = dst
    · rw [removeFirstDev, if_pos ha] at hd
      intro hdd
      exact h.1 (by rw [ha, ← hdd]; exact List.mem_map_of_mem _ hd)
    · rw [removeFirstDev, if_neg ha] at hd
      rcases List.mem_cons.mp hd with rfl | hd'
      · exact ha
      · exact removeFirstDev_not_mem l dst h.2 d hd'

lemma notify_disc_removes (st : CoordState) (dst : Nat) (dev : a2dp_device)
    (hdev : findDev st.devices dst = some dev)
    (hstate : dev.state ≠ HAL_A2DP_STATE_DISCONNECTED)
    (hnodup : (st.devices.map a2dp_device.dst).Nodup) :
    ∀ d ∈ (bt_a2dp_notify_state st dst HAL_A2DP_STATE_DISCONNECTED).devices,
      d.dst ≠ dst := by
  intro d hd
  unfold bt_a2dp_notify_state at hd
  rw [hdev] at hd
  simp only [if_neg hstate, if_pos rfl] at hd
  exact removeFirstDev_not_mem st.devices dst hnodup d hd

lemma notify_same_state (st : CoordState) (dst : Nat) (dev : a2dp_device)
    (hdev : findDev st.devices dst = some dev) (s : Nat)
    (hstate : dev.state = s) :
    bt_a2dp_notify_state st dst s = st := by
  unfold bt_a2dp_notify_state
  rw [hdev]
  simp [hstate]

lemma notify_notifs (st : CoordState) (dst : Nat) (dev : a2dp_device)
    (hdev : findDev st.devices dst = some dev) (s : Nat)
    (hstate : dev.state ≠ s) :
    (bt_a2dp_notify_state st dst s).notifs = st.notifs ++ [(dst, s)] := by
  unfold bt_a2dp_notify_state
  rw [hdev]
  simp only [if_neg hstate]
  by_cases hs : s = HAL_A2DP_STATE_DISCONNECTED
  · simp [hs]
  · simp [hs]

lemma sessionUpFirst_map_dst :
    ∀ (l : List a2dp_device) (dst : Nat),
      (sessionUpFirst l dst).map a2dp_device.dst = l.map a2dp_device.dst
  | [], _ => rfl
  | a :: l, dst => by
    by_cases ha : a.dst = dst
    · simp [sessionUpFirst, ha]
    · simp [sessionUpFirst, ha, sessionUpFirst_map_dst l dst]

lemma findDev_sessionUpFirst :
    ∀ (l : List a2dp_device) (dst : Nat) (dev : a2dp_device),
      findDev l dst = some dev →
      findDev (sessionUpFirst l dst) dst =
        some { dev with session := true, io := false }
  | [], _, _, h => by simp [findDev] at h
  | a :: l, dst, dev, h => by
    by_cases ha : a.dst = dst
    · rw [findDev, if_pos ha] at h
      cases h
      rw [sessionUpFirst, if_pos ha, findDev, if_pos ha]
    · rw [findDev, if_neg ha] at h
      rw [sessionUpFirst, if_neg ha]
      simp only [findDev, if_neg ha]
      exact findDev_sessionUpFirst l dst dev h

/-! ### C1: the SBC validator -/

/-- C1: the claim states that `sbc_check_config` accepts only when all five
mask fields - frequency, channel mode, block length, subbands and
allocation method - share a bit between capability and configuration.  The
code never tests the subbands field: at this concrete input the lengths
match, the other four fields overlap, the subbands masks are disjoint, and
the validator still returns 0 (accept). -/
theorem C1_sbc_accepts_disjoint_subbands :
    sbc_check_config [255, 247, 2, 53] 4 [33, 25, 2, 53] 4 = 0 ∧
    (sbcOfBytes [255, 247, 2, 53]).subbands &&&
      (sbcOfBytes [33, 25, 2, 53]).subbands = 0 := by
  decide

/-! ### C3: one CONN_STATE notification per distinct state change -/

/-- C3: for every device and state value, `bt_a2dp_notify_state` is a
complete no-op (same state, no notification, no destruction) when the
argument equals the device's current state, and otherwise emits exactly one
CONN_STATE notification carrying the new state. -/
theorem C3_notify_state_once (st : CoordState) (dst s : Nat)
    (dev : a2dp_device) (hdev : findDev st.devices dst = some dev) :
    (dev.state = s → bt_a2dp_notify_state st dst s = st) ∧
    (dev.state ≠ s →
      (bt_a2dp_notify_state st dst s).notifs = st.notifs ++ [(dst, s)]) := by
  constructor
  · intro h
    exact notify_same_state st dst dev hdev s h
  · intro h
    exact notify_notifs st dst dev hdev s h

/-- Witness for C3 at a concrete input: a Connected device driven to
Disconnecting emits exactly the one notification. -/
theorem C3_notify_state_once_witness :
    findDev [⟨9, 2, false, true⟩] 9 = some ⟨9, 2, false, true⟩ ∧
    (bt_a2dp_notify_state ⟨[⟨9, 2, false, true⟩], [], []⟩ 9 3).notifs =
      [(9, 3)] := by
  refine ⟨rfl, ?_⟩
  have h := (C3_notify_state_once ⟨[⟨9, 2, false, true⟩], [], []⟩ 9 3
    ⟨9, 2, false, true⟩ rfl).2 (by decide)
  simpa using h

/-! ### C4: reaching Disconnected destroys the device record -/

/-- C4 counterexample: the claim states that after any signaling-connect
failure no live device record remains in the Disconnected state.  An
inbound connection from an unknown peer creates a record whose
zero-initialised state is already Disconnected; when the MTU query then
fails, `bt_a2dp_notify_state(dev, DISCONNECTED)` is a no-op on that record,
so the device is neither freed nor removed: a live record in the
Disconnected state survives the event. -/
theorem C4_incoming_failure_keeps_disconnected_device :
    (connect_cb ⟨[], [], []⟩ 5 SigResult.mtuFail).devices =
      [{ dst := 5, state := HAL_A2DP_STATE_DISCONNECTED,
         io := false, session := false }] ∧
    ∃ d ∈ (connect_cb ⟨[], [], []⟩ 5 SigResult.mtuFail).devices,
      d.state = HAL_A2DP_STATE_DISCONNECTED := by
  decide

/-- C4 (amended): whenever a device record whose state is not already
Disconnected is driven to Disconnected - by a signaling-connect failure, by
the AVDTP disconnect callback, or by a local disconnect on a pre-signaling
channel - the record is removed from the device table and destroyed within
the same event. -/
theorem C4_disconnected_transition_destroys (st : CoordState) (dst : Nat)
    (dev : a2dp_device) (hdev : findDev st.devices dst = some dev)
    (hstate : dev.state ≠ HAL_A2DP_STATE_DISCONNECTED)
    (hnodup : (st.devices.map a2dp_device.dst).Nodup) :
    (∀ r, (r = SigResult.connErr ∨ r = SigResult.mtuFail ∨
        r = SigResult.newFail ∨
        (r = SigResult.discoverFail ∧
          dev.state = HAL_A2DP_STATE_CONNECTING)) →
      ∀ d ∈ (signaling_connect_cb st dst r).devices, d.dst ≠ dst) ∧
    (∀ d ∈ (disconnect_cb st dst).devices, d.dst ≠ dst) ∧
    (dev.io = true →
      ∀ d ∈ (bt_a2dp_disconnect st dst).1.devices, d.dst ≠ dst) := by
  refine ⟨?_, ?_, ?_⟩
  · intro r hr
    rcases hr with rfl | rfl | rfl | ⟨rfl, hconn⟩
    · exact notify_disc_removes st dst dev hdev hstate hnodup
    · exact notify_disc_removes st dst dev hdev hstate hnodup
    · exact notify_disc_removes st dst dev hdev hstate hnodup
    · show ∀ d ∈ (signaling_connect_cb st dst SigResult.discoverFail).devices,
        d.dst ≠ dst
      have hfind := findDev_sessionUpFirst st.devices dst dev hdev
      simp only [signaling_connect_cb, hfind]
      rw [if_pos (⟨hconn, trivial⟩ : _ ∧ _)]
      refine notify_disc_removes _ dst _ hfind ?_ ?_
      · simpa using hstate
      · simpa [sessionUpFirst_map_dst] using hnodup
  · exact notify_disc_removes st dst dev hdev hstate hnodup
  · intro hio
    simp only [bt_a2dp_disconnect, hdev, hio, if_true]
    exact notify_disc_removes st dst dev hdev hstate hnodup

/-- Witness for C4 at a concrete input: a Connecting device with a pending
signaling channel is removed on a failed MTU query. -/
theorem C4_disconnected_transition_destroys_witness :
    (findDev [⟨5, 1, true, false⟩] 5 = some ⟨5, 1, true, false⟩ ∧
      (⟨5, 1, true, false⟩ : a2dp_device).state ≠
        HAL_A2DP_STATE_DISCONNECTED ∧
      (([⟨5, 1, true, false⟩] : List a2dp_device).map
        a2dp_device.dst).Nodup) ∧
    ∀ d ∈ (signaling_connect_cb ⟨[⟨5, 1, true, false⟩], [], []⟩ 5
      SigResult.mtuFail).devices, d.dst ≠ 5 := by
  refine ⟨⟨rfl, by decide, by decide⟩, ?_⟩
  exact (C4_disconnected_transition_destroys ⟨[⟨5, 1, true, false⟩], [], []⟩
    5 ⟨5, 1, true, false⟩ rfl (by decide) (by decide)).1
    SigResult.mtuFail (Or.inr (Or.inl rfl))

/-! ### C5: every live setup's device is live and Connected -/

/-- C5: the claim states that no sequence of events leaves a live setup
whose device has been destroyed or is not Connected.  In the code,
`a2dp_device_free` (reached from the disconnect callback through
`bt_a2dp_notify_state`) does not touch the setup list: after a remote drop
the device record is destroyed while its setup remains live, with a
dangling `dev` reference. -/
theorem C5_remote_drop_leaves_dangling_setup :
    (sep_setconf_ind ⟨[⟨7, 2, false, true⟩], [], []⟩ 7 C5endpoint 0
      C5caps).2 = true ∧
    C5afterDrop.devices = [] ∧
    C5afterDrop.setups = [⟨7, 1, ⟨[33, 21, 53, 53]⟩, 0⟩] := by
  decide

/-! ### C8: local disconnect on a pre-signaling channel -/

/-- C8: an A2DP_DISCONNECT for a tracked device that still holds its
signaling channel handle (`io` present, no session, state Connecting)
emits CONN_STATE Disconnected, removes and destroys the device record, and
responds with STATUS_SUCCESS even though the response is sent at the shared
`failed` label. -/
theorem C8_disconnect_pre_signaling (st : CoordState) (dst : Nat)
    (dev : a2dp_device) (hdev : findDev st.devices dst = some dev)
    (hio : dev.io = true) (hsession : dev.session = false)
    (hstate : dev.state = HAL_A2DP_STATE_CONNECTING)
    (hnodup : (st.devices.map a2dp_device.dst).Nodup) :
    (bt_a2dp_disconnect st dst).2 = HAL_STATUS_SUCCESS ∧
    (bt_a2dp_disconnect st dst).1.notifs =
      st.notifs ++ [(dst, HAL_A2DP_STATE_DISCONNECTED)] ∧
    ∀ d ∈ (bt_a2dp_disconnect st dst).1.devices, d.dst ≠ dst := by
  have hne : dev.state ≠ HAL_A2DP_STATE_DISCONNECTED := by
    rw [hstate]; decide
  refine ⟨?_, ?_, ?_⟩
  · simp [bt_a2dp_disconnect, hdev, hio]
  · simp only [bt_a2dp_disconnect, hdev, hio, if_true]
    exact notify_notifs st dst dev hdev _ hne
  · simp only [bt_a2dp_disconnect, hdev, hio, if_true]
    exact notify_disc_removes st dst dev hdev hne hnodup

/-- Witness for C8 at a concrete input: device 4 in Connecting with its
channel handle present. -/
theorem C8_disconnect_pre_signaling_witness :
    (findDev [⟨4, 1, true, false⟩] 4 = some ⟨4, 1, true, false⟩ ∧
      (⟨4, 1, true, false⟩ : a2dp_device).io = true ∧
      (⟨4, 1, true, false⟩ : a2dp_device).session = false ∧
      (⟨4, 1, true, false⟩ : a2dp_device).state =
        HAL_A2DP_STATE_CONNECTING) ∧
    (bt_a2dp_disconnect ⟨[⟨4, 1, true, false⟩], [], []⟩ 4).2 =
      HAL_STATUS_SUCCESS := by
  refine ⟨⟨rfl, rfl, rfl, rfl⟩, ?_⟩
  exact (C8_disconnect_pre_signaling ⟨[⟨4, 1, true, false⟩], [], []⟩ 4
    ⟨4, 1, true, false⟩ rfl rfl rfl rfl (by decide)).1

/-! ### C7: setup destruction at the confirmations -/

lemma setup_remove_by_id_not_mem :
    ∀ (setups : List a2dp_setup) (id : Nat),
      (setups.map a2dp_setup.endpointId).Nodup →
      ∀ s ∈ setup_remove_by_id setups id, s.endpointId ≠ id
  | [], _, _, s, hs => by simp [setup_remove_by_id] at hs
  | a :: l, id, h, s, hs => by
    simp only [List.map_cons, List.nodup_cons] at h
    by_cases ha : a.endpointId = id
    · rw [setup_remove_by_id, if_pos ha] at hs
      intro hss
      exact h.1 (by rw [ha, ← hss]; exact List.mem_map_of_mem _ hs)
    · rw [setup_remove_by_id, if_neg ha] at hs
      rcases List.mem_cons.mp hs with rfl | hs'
      · exact ha
      · exact setup_remove_by_id_not_mem l id h.2 s hs'

/-- C7 counterexample: the claim states that an error in a close or abort
confirmation destroys the corresponding setup.  In the code both
`sep_close_cfm` and `sep_abort_cfm` return immediately when the
confirmation carries an error, so at this concrete input the setup for
endpoint 1 survives both. -/
theorem C7_close_abort_error_keeps_setup :
    sep_close_cfm [⟨7, 1, ⟨[33]⟩, 0⟩] 1 true = [⟨7, 1, ⟨[33]⟩, 0⟩] ∧
    sep_abort_cfm [⟨7, 1, ⟨[33]⟩, 0⟩] 1 true = [⟨7, 1, ⟨[33]⟩, 0⟩] := by
  decide

/-- C7 (amended): an error in a start or suspend confirmation destroys the
setup of the confirming endpoint, and a successful close or abort
confirmation destroys it as well; an error in a close or abort
confirmation, and a successful start or suspend confirmation, leave the
setup list untouched. -/
theorem C7_cfm_setup_destruction (setups : List a2dp_setup) (id : Nat)
    (hnodup : (setups.map a2dp_setup.endpointId).Nodup) :
    (∀ s ∈ sep_start_cfm setups id true, s.endpointId ≠ id) ∧
    (∀ s ∈ sep_suspend_cfm setups id true, s.endpointId ≠ id) ∧
    (∀ s ∈ sep_close_cfm setups id false, s.endpointId ≠ id) ∧
    (∀ s ∈ sep_abort_cfm setups id false, s.endpointId ≠ id) ∧
    sep_close_cfm setups id true = setups ∧
    sep_abort_cfm setups id true = setups ∧
    sep_start_cfm setups id false = setups ∧
    sep_suspend_cfm setups id false = setups := by
  refine ⟨?_, ?_, ?_, ?_, rfl, rfl, rfl, rfl⟩ <;>
    simpa [sep_start_cfm, sep_suspend_cfm, sep_close_cfm, sep_abort_cfm]
      using setup_remove_by_id_not_mem setups id hnodup

/-- Witness for C7 at a concrete input: with one setup for endpoint 1, a
failing start confirmation removes it. -/
theorem C7_cfm_setup_destruction_witness :
    (([⟨7, 1, ⟨[33]⟩, 0⟩] : List a2dp_setup).map
      a2dp_setup.endpointId).Nodup ∧
    ∀ s ∈ sep_start_cfm [⟨7, 1, ⟨[33]⟩, 0⟩] 1 true, s.endpointId ≠ 1 := by
  refine ⟨by decide, ?_⟩
  exact (C7_cfm_setup_destruction [⟨7, 1, ⟨[33]⟩, 0⟩] 1 (by decide)).1

/-! ### C6: endpoint id allocation -/

lemma markClosedFirst_map_id :
    ∀ (l : List EndpointEntry) (id : Nat),
      (markClosedFirst l id).map (fun e => e.ep.id) =
        l.map fun e => e.ep.id
  | [], _ => rfl
  | e :: l, id => by
    by_cases h : e.ep.id = id
    · simp [markClosedFirst, h]
    · simp [markClosedFirst, h, markClosedFirst_map_id l id]

lemma markClosedFirst_length (l : List EndpointEntry) (id : Nat) :
    (markClosedFirst l id).length = l.length := by
  have h := congrArg List.length (markClosedFirst_map_id l id)
  simpa using h

/-- The registry invariant maintained by every audio OPEN / CLOSE command:
the ids stored in the `endpoints` list - freed entries included, since
`bt_audio_close` never unlinks - are exactly 1, 2, ..., length, in
order. -/
lemma runAudio_ids :
    ∀ (evs : List AudioEv) (eps : List EndpointEntry),
      (eps.map fun e => e.ep.id) =
        (List.range eps.length).map Nat.succ →
      ((runAudio eps evs).map fun e => e.ep.id) =
        (List.range (runAudio eps evs).length).map Nat.succ
  | [], eps, h => h
  | AudioEv.openEv c n buf :: evs, eps, h => by
    rw [runAudio]
    apply runAudio_ids evs
    unfold bt_audio_open
    by_cases hn : n = 0
    · simpa [hn] using h
    · rw [if_neg hn]
      cases hp : parse_presets buf n buf.length with
      | none => simpa using h
      | some ps =>
        simp only [register_endpoint]
        rw [if_neg (Nat.succ_ne_zero eps.length)]
        simp only [List.map_append, List.length_append, List.map_cons,
          List.map_nil, List.length_cons, List.length_nil]
        rw [h, List.range_succ]
        simp
  | AudioEv.closeEv id :: evs, eps, h => by
    rw [runAudio]
    apply runAudio_ids evs
    unfold bt_audio_close
    cases find_endpoint eps id with
    | none => simpa using h
    | some e =>
      simp only
      rw [markClosedFirst_map_id, markClosedFirst_length]
      exact h

/-- C6 counterexample: the claim is premised on `register_endpoint`
assigning `count(live endpoints) + 1`.  After OPEN, OPEN, CLOSE(1), one
endpoint is live, so that formula would assign 2 - yet the code assigns
`g_slist_length(endpoints) + 1 = 3`, because `bt_audio_close` frees the
endpoint without removing its node from the list. -/
theorem C6_id_not_live_count_plus_one :
    (register_endpoint
        (runAudio [] [AudioEv.openEv 0 1 [1, 9, 0],
          AudioEv.openEv 0 1 [1, 9, 0], AudioEv.closeEv 1]) 0 [⟨[9]⟩]).2
      = 3 ∧
    ((runAudio [] [AudioEv.openEv 0 1 [1, 9, 0],
        AudioEv.openEv 0 1 [1, 9, 0], AudioEv.closeEv 1]).filter
      (fun e => e.live)).length + 1 = 2 := by
  decide

/-- C6 (amended): because a closed endpoint's node stays in the list,
`register_endpoint` in fact assigns `(number of endpoints ever registered)
+ 1`; consequently, for every sequence of audio OPEN and CLOSE commands the
ids of all entries - in particular of all live endpoints - are pairwise
distinct, and a newly assigned id never equals any previously assigned id,
freed or not. -/
theorem C6_endpoint_ids_never_collide (evs : List AudioEv) :
    (((runAudio [] evs).map fun e => e.ep.id).Nodup) ∧
    ∀ codec presets,
      (register_endpoint (runAudio [] evs) codec presets).2 ∉
        (runAudio [] evs).map fun e => e.ep.id := by
  have h := runAudio_ids evs [] (by simp)
  constructor
  · rw [h]
    exact (List.nodup_range _).map Nat.succ_injective
  · intro codec presets hmem
    rw [h] at hmem
    simp only [register_endpoint] at hmem
    rcases List.mem_map.mp hmem with ⟨k, hk, hk2⟩
    rw [List.mem_range] at hk
    omega

/-! ### C2 and C10: the set-configuration indication -/

lemma getLast?_cons_some {α : Type} (x : α) :
    ∀ xs : List α, ∃ c, (x :: xs).getLast? = some c
  | [] => ⟨x, by simp⟩
  | y :: ys => by
    rw [List.getLast?_cons_cons]
    exact getLast?_cons_some y ys

/-- The capability loop succeeds exactly when every proposed capability is
unobjectionable and - unless a preset was already accumulated - at least
one MEDIA_CODEC capability occurs. -/
lemma scan_some_iff (endpoint : a2dp_endpoint) :
    ∀ (caps : List avdtp_service_capability) (acc : Option a2dp_preset),
      (sep_setconf_scan endpoint caps acc).isSome = true ↔
        ((∀ cap ∈ caps, capOk endpoint cap) ∧
          (acc.isSome = true ∨
            ∃ cap ∈ caps, cap.category = AVDTP_MEDIA_CODEC))
  | [], acc => by simp [sep_setconf_scan]
  | cap :: caps, acc => by
    rw [sep_setconf_scan]
    by_cases h1 : cap.category = AVDTP_DELAY_REPORTING
    · rw [if_pos h1]
      constructor
      · intro hc
        simp at hc
      · rintro ⟨hall, -⟩
        exact ((hall cap (List.mem_cons_self cap caps)).1 h1).elim
    · rw [if_neg h1]
      by_cases h2 : cap.category = AVDTP_MEDIA_CODEC
      · rw [if_neg (not_not_intro h2)]
        by_cases h3 : cap.media_codec_type = endpoint.codec
        · rw [if_neg (not_not_intro h3)]
          by_cases h4 : check_config endpoint ⟨cap.codec_data⟩ < 0
          · rw [if_pos h4]
            constructor
            · intro hc
              simp at hc
            · rintro ⟨hall, -⟩
              exact (((hall cap (List.mem_cons_self cap caps)).2 h2).2
                h4).elim
          · rw [if_neg h4]
            rw [scan_some_iff endpoint caps (some ⟨cap.codec_data⟩)]
            constructor
            · rintro ⟨hall, -⟩
              refine ⟨?_, Or.inr ⟨cap, List.mem_cons_self cap caps, h2⟩⟩
              intro c hc
              rcases List.mem_cons.mp hc with rfl | hc'
              · exact ⟨h1, fun _ => ⟨h3, h4⟩⟩
              · exact hall c hc'
            · rintro ⟨hall, -⟩
              exact ⟨fun c hc => hall c (List.mem_cons_of_mem cap hc),
                Or.inl rfl⟩
        · rw [if_pos h3]
          constructor
          · intro hc
            simp at hc
          · rintro ⟨hall, -⟩
            exact (h3 (((hall cap (List.mem_cons_self cap caps)).2
              h2).1)).elim
      · rw [if_pos h2]
        rw [scan_some_iff endpoint caps acc]
        constructor
        · rintro ⟨hall, hex⟩
          refine ⟨?_, ?_⟩
          · intro c hc
            rcases List.mem_cons.mp hc with rfl | hc'
            · exact ⟨h1, fun hcc => absurd hcc h2⟩
            · exact hall c hc'
          · rcases hex with hacc | ⟨c, hc, hcat⟩
            · exact Or.inl hacc
            · exact Or.inr ⟨c, List.mem_cons_of_mem cap hc, hcat⟩
        · rintro ⟨hall, hex⟩
          refine ⟨fun c hc => hall c (List.mem_cons_of_mem cap hc), ?_⟩
          rcases hex with hacc | ⟨c, hc, hcat⟩
          · exact Or.inl hacc
          · rcases List.mem_cons.mp hc with rfl | hc'
            · exact absurd hcat h2
            · exact Or.inr ⟨c, hc', hcat⟩

/-- `check_config` accepts exactly when the proposed blob equals a stored
preset byte-for-byte (length equality is subsumed) or the codec validator
accepts it against the endpoint's capabilities. -/
lemma check_config_iff (endpoint : a2dp_endpoint) (config : a2dp_preset) :
    check_config endpoint config = 0 ↔
      ((∃ p ∈ endpoint.presets, p.data = config.data) ∨
        (endpoint.codec = A2DP_CODEC_SBC ∧
          sbc_check_config endpoint.caps.data endpoint.caps.len config.data
            config.len = 0)) := by
  unfold check_config
  by_cases hany :
      (endpoint.presets.any fun preset => preset.data == config.data) = true
  · rw [if_pos hany]
    simp only [List.any_eq_true, beq_iff_eq] at hany
    exact iff_of_true rfl (Or.inl hany)
  · rw [if_neg hany]
    simp only [List.any_eq_true, beq_iff_eq] at hany
    push_neg at hany
    by_cases hsbc : endpoint.codec = A2DP_CODEC_SBC
    · rw [if_pos hsbc]
      constructor
      · intro h
        exact Or.inr ⟨hsbc, h⟩
      · rintro (⟨p, hp, he⟩ | ⟨-, h⟩)
        · exact absurd he (hany p hp)
        · exact h
    · rw [if_neg hsbc]
      constructor
      · intro h
        exact absurd h (by decide)
      · rintro (⟨p, hp, he⟩ | ⟨hc, -⟩)
        · exact absurd he (hany p hp)
        · exact absurd hc hsbc

/-- When no capability is objectionable, the loop's final preset is built
from the payload of the last MEDIA_CODEC capability in the list (each
MEDIA_CODEC capability overwrites the previous preset), falling back to the
accumulator if there is none. -/
lemma scan_value_last (endpoint : a2dp_endpoint) :
    ∀ (caps : List avdtp_service_capability) (acc : Option a2dp_preset),
      (∀ cap ∈ caps, capOk endpoint cap) →
      sep_setconf_scan endpoint caps acc =
        match (caps.filter fun c =>
            c.category == AVDTP_MEDIA_CODEC).getLast? with
        | some c => some ⟨c.codec_data⟩
        | none => acc
  | [], acc, _ => by simp [sep_setconf_scan]
  | cap :: caps, acc, hall => by
    have hcap := hall cap (List.mem_cons_self cap caps)
    have hrest : ∀ c ∈ caps, capOk endpoint c :=
      fun c hc => hall c (List.mem_cons_of_mem cap hc)
    rw [sep_setconf_scan, if_neg hcap.1]
    by_cases h2 : cap.category = AVDTP_MEDIA_CODEC
    · rw [if_neg (not_not_intro h2)]
      rcases hcap.2 h2 with ⟨h3, h4⟩
      rw [if_neg (not_not_intro h3), if_neg h4]
      rw [scan_value_last endpoint caps (some ⟨cap.codec_data⟩) hrest]
      have hpc : (cap.category == AVDTP_MEDIA_CODEC) = true := by
        simp [h2]
      rw [List.filter_cons, if_pos hpc]
      cases hfl : caps.filter fun c => c.category == AVDTP_MEDIA_CODEC with
      | nil => simp [List.getLast?]
      | cons x xs =>
        obtain ⟨c, hc⟩ := getLast?_cons_some x xs
        rw [List.getLast?_cons_cons, hc]
    · rw [if_pos h2]
      rw [scan_value_last endpoint caps acc hrest]
      have hpc : ¬(cap.category == AVDTP_MEDIA_CODEC) = true := by
        simp [h2]
      rw [List.filter_cons, if_neg hpc]

/-- C2: for a tracked device, the set-configuration indication accepts
exactly when no proposed capability is DELAY_REPORTING, every MEDIA_CODEC
capability matches the endpoint's codec type and passes `check_config`, and
at least one MEDIA_CODEC capability is present; on rejection nothing
changes; on acceptance one setup binding (device, endpoint, new preset,
stream) is appended and the configuration is confirmed with no error; and
`check_config` accepts exactly a byte-identical stored preset or a
validator-approved configuration. -/
theorem C2_setconf_ind_correct (st : CoordState) (dst : Nat)
    (endpoint : a2dp_endpoint) (stream : Nat)
    (caps : List avdtp_service_capability) (dev : a2dp_device)
    (hdev : findDev st.devices dst = some dev) :
    ((sep_setconf_ind st dst endpoint stream caps).2 = true ↔
      ((∀ cap ∈ caps, capOk endpoint cap) ∧
        ∃ cap ∈ caps, cap.category = AVDTP_MEDIA_CODEC)) ∧
    ((sep_setconf_ind st dst endpoint stream caps).2 = false →
      sep_setconf_ind st dst endpoint stream caps = (st, false)) ∧
    (∀ preset, sep_setconf_scan endpoint caps none = some preset →
      (sep_setconf_ind st dst endpoint stream caps).1.setups =
        st.setups ++ [⟨dst, endpoint.id, preset, stream⟩]) ∧
    (∀ config : a2dp_preset,
      check_config endpoint config = 0 ↔
        ((∃ p ∈ endpoint.presets, p.data = config.data) ∨
          (endpoint.codec = A2DP_CODEC_SBC ∧
            sbc_check_config endpoint.caps.data endpoint.caps.len
              config.data config.len = 0))) := by
  have hiff := scan_some_iff endpoint caps none
  cases hscan : sep_setconf_scan endpoint caps none with
  | none =>
    have hind : sep_setconf_ind st dst endpoint stream caps = (st, false) :=
      by simp [sep_setconf_ind, hdev, hscan]
    refine ⟨?_, fun _ => hind, ?_,
      fun config => check_config_iff endpoint config⟩
    · rw [hind]
      constructor
      · intro h
        simp at h
      · rintro ⟨hall, hex⟩
        have h := hiff.mpr ⟨hall, Or.inr hex⟩
        rw [hscan] at h
        simp at h
    · intro preset hp
      exact Option.noConfusion hp
  | some p =>
    have hind : sep_setconf_ind st dst endpoint stream caps =
        ({ st with setups := st.setups ++ [⟨dst, endpoint.id, p, stream⟩] },
          true) := by
      simp [sep_setconf_ind, hdev, hscan]
    have hsome := hiff.mp (by rw [hscan]; rfl)
    refine ⟨?_, ?_, ?_, fun config => check_config_iff endpoint config⟩
    · rw [hind]
      constructor
      · intro _
        rcases hsome with ⟨hall, hor⟩
        rcases hor with habs | hex
        · simp at habs
        · exact ⟨hall, hex⟩
      · intro _
        rfl
    · rw [hind]
      intro h
      simp at h
    · intro preset hp
      cases Option.some.inj hp
      rw [hind]

/-- Witness for C2 at a concrete input: an SBC endpoint accepts a proposal
consisting of one MEDIA_CODEC capability equal to its stored preset. -/
theorem C2_setconf_ind_correct_witness :
    findDev [⟨3, 2, false, true⟩] 3 = some ⟨3, 2, false, true⟩ ∧
    (sep_setconf_ind ⟨[⟨3, 2, false, true⟩], [], []⟩ 3
      ⟨1, 0, ⟨[255, 255, 2, 53]⟩, [⟨[34, 21, 2, 53]⟩]⟩ 0
      [⟨7, 0, [34, 21, 2, 53]⟩]).2 = true := by
  refine ⟨rfl, ?_⟩
  exact (C2_setconf_ind_correct ⟨[⟨3, 2, false, true⟩], [], []⟩ 3
    ⟨1, 0, ⟨[255, 255, 2, 53]⟩, [⟨[34, 21, 2, 53]⟩]⟩ 0
    [⟨7, 0, [34, 21, 2, 53]⟩] ⟨3, 2, false, true⟩ rfl).1.mpr
    ⟨by decide, ⟨7, 0, [34, 21, 2, 53]⟩, by decide, rfl⟩

/-- C10: when the peer proposes several MEDIA_CODEC capabilities and every
one of them passes validation, the indication still accepts and the single
setup it creates binds the preset built from the last MEDIA_CODEC
capability of the list. -/
theorem C10_last_media_codec_bound (st : CoordState) (dst : Nat)
    (endpoint : a2dp_endpoint) (stream : Nat)
    (caps : List avdtp_service_capability) (dev : a2dp_device)
    (clast : avdtp_service_capability)
    (hdev : findDev st.devices dst = some dev)
    (hok : ∀ cap ∈ caps, capOk endpoint cap)
    (hmany : 2 ≤ (caps.filter fun c =>
        c.category == AVDTP_MEDIA_CODEC).length)
    (hlast : (caps.filter fun c =>
        c.category == AVDTP_MEDIA_CODEC).getLast? = some clast) :
    (sep_setconf_ind st dst endpoint stream caps).2 = true ∧
    (sep_setconf_ind st dst endpoint stream caps).1.setups =
      st.setups ++ [⟨dst, endpoint.id, ⟨clast.codec_data⟩, stream⟩] := by
  have hscan : sep_setconf_scan endpoint caps none =
      some ⟨clast.codec_data⟩ := by
    rw [scan_value_last endpoint caps none hok, hlast]
  constructor
  · simp [sep_setconf_ind, hdev, hscan]
  · simp [sep_setconf_ind, hdev, hscan]

/-- Witness for C10 at a concrete input: two valid SBC MEDIA_CODEC
capabilities; the created setup carries the second payload. -/
theorem C10_last_media_codec_bound_witness :
    (findDev [⟨3, 2, false, true⟩] 3 = some ⟨3, 2, false, true⟩ ∧
      (([⟨7, 0, [1, 1, 1, 1]⟩, ⟨7, 0, [2, 2, 2, 2]⟩] :
          List avdtp_service_capability).filter fun c =>
        c.category == AVDTP_MEDIA_CODEC).getLast? =
          some ⟨7, 0, [2, 2, 2, 2]⟩) ∧
    (sep_setconf_ind ⟨[⟨3, 2, false, true⟩], [], []⟩ 3
      ⟨1, 0, ⟨[255, 255, 2, 53]⟩, [⟨[1, 1, 1, 1]⟩, ⟨[2, 2, 2, 2]⟩]⟩ 0
      [⟨7, 0, [1, 1, 1, 1]⟩, ⟨7, 0, [2, 2, 2, 2]⟩]).1.setups =
      [] ++ [⟨3, 1, ⟨[2, 2, 2, 2]⟩, 0⟩] := by
  refine ⟨⟨rfl, by decide⟩, ?_⟩
  exact (C10_last_media_codec_bound ⟨[⟨3, 2, false, true⟩], [], []⟩ 3
    ⟨1, 0, ⟨[255, 255, 2, 53]⟩, [⟨[1, 1, 1, 1]⟩, ⟨[2, 2, 2, 2]⟩]⟩ 0
    [⟨7, 0, [1, 1, 1, 1]⟩, ⟨7, 0, [2, 2, 2, 2]⟩] ⟨3, 2, false, true⟩
    ⟨7, 0, [2, 2, 2, 2]⟩ rfl (by decide) (by decide) (by decide)).2

/-! ### C9: the audio OPEN command -/

lemma parse_presets_length :
    ∀ (count : Nat) (buf : List Nat) (len : Nat) (ps : List a2dp_preset),
      parse_presets buf count len = some ps → ps.length = count
  | 0, buf, len, ps, h => by
    rw [parse_presets] at h
    cases Option.some.inj h
    rfl
  | count + 1, buf, len, ps, h => by
    rw [parse_presets] at h
    by_cases h1 : len < 1
    · rw [if_pos h1] at h
      exact Option.noConfusion h
    · rw [if_neg h1] at h
      by_cases h2 : len - 1 = 0 ∨ len - 1 < buf.headD 0
      · rw [if_pos h2] at h
        exact Option.noConfusion h
      · rw [if_neg h2] at h
        cases hrec : parse_presets (buf.drop (1 + buf.headD 0)) count
            (len - 1 - buf.headD 0) with
        | none =>
          rw [hrec] at h
          exact Option.noConfusion h
        | some rest =>
          rw [hrec] at h
          cases Option.some.inj h
          simp [parse_presets_length count _ _ rest hrec]

lemma parse_presets_chunks :
    ∀ (count : Nat) (buf : List Nat) (ps : List a2dp_preset),
      parse_presets buf count buf.length = some ps →
      ∃ rest, buf = presetChunks ps ++ rest
  | 0, buf, ps, h => by
    rw [parse_presets] at h
    cases Option.some.inj h
    exact ⟨buf, by simp [presetChunks]⟩
  | count + 1, buf, ps, h => by
    rw [parse_presets] at h
    by_cases h1 : buf.length < 1
    · rw [if_pos h1] at h
      exact Option.noConfusion h
    · rw [if_neg h1] at h
      by_cases h2 : buf.length - 1 = 0 ∨ buf.length - 1 < buf.headD 0
      · rw [if_pos h2] at h
        exact Option.noConfusion h
      · rw [if_neg h2] at h
        push_neg at h2
        have hdl : (buf.drop (1 + buf.headD 0)).length =
            buf.length - 1 - buf.headD 0 := by
          simp [List.length_drop]
          omega
        cases hrec : parse_presets (buf.drop (1 + buf.headD 0)) count
            (buf.length - 1 - buf.headD 0) with
        | none =>
          rw [hrec] at h
          exact Option.noConfusion h
        | some rest0 =>
          rw [hrec] at h
          cases Option.some.inj h
          obtain ⟨tail, htail⟩ := parse_presets_chunks count
            (buf.drop (1 + buf.headD 0)) rest0 (by rw [hdl]; exact hrec)
          refine ⟨tail, ?_⟩
          cases buf with
          | nil => simp at h1
          | cons b bs =>
            have hb : (b :: bs : List Nat).headD 0 = b := rfl
            rw [hb] at htail h2 ⊢
            have hlen : b ≤ bs.length := by
              have := h2.2
              simpa using this
            have hdrop : (b :: bs : List Nat).drop (1 + b) = bs.drop b := by
              rw [Nat.add_comm]
              exact List.drop_succ_cons
            rw [hdrop] at htail
            have htake : ((b :: bs : List Nat).drop 1).take b = bs.take b :=
              rfl
            rw [htake]
            simp only [presetChunks, List.cons_append, List.append_assoc]
            have hlt : (bs.take b).length = b := by
              simp [List.length_take]
              omega
            rw [hlt]
            refine congrArg (b :: ·) ?_
            rw [← htail]
            exact (List.take_append_drop b bs).symm

lemma parse_presets_bounds (count : Nat) (buf : List Nat) (len : Nat)
    (hc : count ≠ 0) (h : len ≤ 1 ∨ len - 1 < buf.headD 0) :
    parse_presets buf count len = none := by
  cases count with
  | zero => exact absurd rfl hc
  | succ n =>
    rw [parse_presets]
    by_cases h1 : len < 1
    · rw [if_pos h1]
    · rw [if_neg h1]
      have hcond : len - 1 = 0 ∨ len - 1 < buf.headD 0 := by
        rcases h with h | h
        · left
          omega
        · right
          exact h
      rw [if_pos hcond]

lemma bt_audio_open_zero (endpoints : List EndpointEntry) (codec : Nat)
    (buf : List Nat) : bt_audio_open endpoints codec 0 buf =
      (endpoints, none) := by
  unfold bt_audio_open
  rw [if_pos rfl]

lemma bt_audio_open_parse_none (endpoints : List EndpointEntry)
    (codec presetCount : Nat) (buf : List Nat) (hn : presetCount ≠ 0)
    (hp : parse_presets buf presetCount buf.length = none) :
    bt_audio_open endpoints codec presetCount buf = (endpoints, none) := by
  unfold bt_audio_open
  rw [if_neg hn, hp]

lemma bt_audio_open_parse_some (endpoints : List EndpointEntry)
    (codec presetCount : Nat) (buf : List Nat) (ps : List a2dp_preset)
    (hn : presetCount ≠ 0)
    (hp : parse_presets buf presetCount buf.length = some ps) :
    bt_audio_open endpoints codec presetCount buf =
      (endpoints ++
        [⟨{ id := endpoints.length + 1, codec := codec,
            caps := ps.headD ⟨[]⟩, presets := ps.tail }, true⟩],
        some (endpoints.length + 1)) := by
  unfold bt_audio_open
  rw [if_neg hn, hp]
  simp [register_endpoint, Nat.succ_ne_zero]

/-- C9: an audio OPEN command parses the packed preset stream as
length-tagged blobs laid back-to-back, bounds-checking each against the
remaining buffer (a short, empty or overrun remainder rejects the whole
command with no endpoint registered); on success the endpoint is
registered and its id returned, with the first parsed preset as its
capabilities and the remaining presets its ordered preferred-preset
list. -/
theorem C9_audio_open_parses_and_registers (endpoints : List EndpointEntry)
    (codec : Nat) (presetCount : Nat) (buf : List Nat) :
    ((bt_audio_open endpoints codec presetCount buf).2 = none →
      (bt_audio_open endpoints codec presetCount buf).1 = endpoints) ∧
    (∀ id, (bt_audio_open endpoints codec presetCount buf).2 = some id →
      ∃ ps, parse_presets buf presetCount buf.length = some ps ∧
        ps.length = presetCount ∧
        (∃ rest, buf = presetChunks ps ++ rest) ∧
        id = endpoints.length + 1 ∧
        (bt_audio_open endpoints codec presetCount buf).1 =
          endpoints ++
            [⟨{ id := endpoints.length + 1, codec := codec,
                caps := ps.headD ⟨[]⟩, presets := ps.tail }, true⟩]) ∧
    (presetCount ≠ 0 →
      (buf.length ≤ 1 ∨ buf.length - 1 < buf.headD 0) →
      bt_audio_open endpoints codec presetCount buf = (endpoints, none)) := by
  refine ⟨?_, ?_, ?_⟩
  · intro h
    by_cases hn : presetCount = 0
    · cases hn
      rw [bt_audio_open_zero endpoints codec buf]
    · cases hp : parse_presets buf presetCount buf.length with
      | none =>
        rw [bt_audio_open_parse_none endpoints codec presetCount buf hn hp]
      | some ps =>
        rw [bt_audio_open_parse_some endpoints codec presetCount buf ps hn
          hp] at h
        exact Option.noConfusion h
  · intro id h
    by_cases hn : presetCount = 0
    · cases hn
      rw [bt_audio_open_zero endpoints codec buf] at h
      exact Option.noConfusion h
    · cases hp : parse_presets buf presetCount buf.length with
      | none =>
        rw [bt_audio_open_parse_none endpoints codec presetCount buf hn
          hp] at h
        exact Option.noConfusion h
      | some ps =>
        have he := bt_audio_open_parse_some endpoints codec presetCount buf
          ps hn hp
        rw [he] at h
        refine ⟨ps, rfl,
          parse_presets_length presetCount buf buf.length ps hp,
          parse_presets_chunks presetCount buf ps hp,
          (Option.some.inj h).symm, ?_⟩
        rw [he]
  · intro hn hb
    rw [bt_audio_open_parse_none endpoints codec presetCount buf hn
      (parse_presets_bounds presetCount buf buf.length hn hb)]

/-- Witness for C9 at concrete inputs: an empty OPEN is rejected without
registration, and a one-preset OPEN with buffer `[1, 9, 0]` registers
endpoint 1 with capabilities `[9]`. -/
theorem C9_audio_open_parses_and_registers_witness :
    ((bt_audio_open [] 0 0 []).2 = none ∧ (bt_audio_open [] 0 0 []).1 = []) ∧
    ∃ ps, parse_presets [1, 9, 0] 1 ([1, 9, 0] : List Nat).length =
        some ps ∧
      ps.length = 1 ∧
      (∃ rest, [1, 9, 0] = presetChunks ps ++ rest) ∧
      (1 : Nat) = ([] : List EndpointEntry).length + 1 ∧
      (bt_audio_open [] 0 1 [1, 9, 0]).1 =
        [] ++ [⟨{ id := ([] : List EndpointEntry).length + 1, codec := 0,
                  caps := ps.headD ⟨[]⟩, presets := ps.tail }, true⟩] := by
  refine ⟨⟨rfl, (C9_audio_open_parses_and_registers [] 0 0 []).1 rfl⟩, ?_⟩
  exact (C9_audio_open_parses_and_registers [] 0 1 [1, 9, 0]).2.1 1 rfl
